import Mathlib

/-!
# check_inlined.hpp : address-distance inlining check

Embedding of `src/check_inlined.hpp` (the token-pasting helpers, the probe
`RETURN_ADDRESS`, and the statement sequences produced by `CHECK_INLINED0` /
`CHECK_INLINED`).

* `uintptr_t` is a 64-bit unsigned integer: values are naturals below `2 ^ 64`
  and arithmetic is reduced modulo `2 ^ 64` explicitly.
* The compiler builtins `__builtin_return_address` and
  `__builtin_extract_return_addr`, and the link-time entry address of each
  function, are inputs of the embedding (`Machine`).
* An expansion of `CHECK_INLINED0` is a list of statements (`Stmt`) that is
  executed in the block scope it is expanded into (`State`).
-/

namespace CheckInlined

/-! ## Machine integers -/

/-- Number of values of `uintptr_t` (64-bit pointers). -/
def UINTPTR_MOD : Nat := 2 ^ 64

/-- Unsigned subtraction on `uintptr_t` operands, `a - b`, wrapping modulo `2 ^ 64`. -/
def uintptr_sub (a b : Nat) : Nat := (a + UINTPTR_MOD - b) % UINTPTR_MOD

/-- The controlling expression of the check, `(EXEC_ADDR-FUNC_ADDR>0x40)`
(check_inlined.hpp line 102). -/
def classify (EXEC_ADDR FUNC_ADDR : Nat) : Bool :=
  decide (uintptr_sub EXEC_ADDR FUNC_ADDR > 0x40)

/-! ## Token pasting and GENSYM -/

/-- Preprocessing tokens that occur as arguments of the pasting helpers. -/
inductive PPToken where
  /-- An ordinary identifier, which is not the name of any object-like define. -/
  | ident (spelling : String)
  /-- The predefined name `__LINE__`. -/
  | lineNumber
  deriving DecidableEq, Repr

/-- Spelling of a token as written in the source. -/
def PPToken.spelling : PPToken → String
  | .ident s => s
  | .lineNumber => "__LINE__"

/-- Complete expansion of an argument token at a given source line: `__LINE__`
is replaced by the decimal line number, any other identifier stays as it is. -/
def PPToken.expand (line : Nat) : PPToken → PPToken
  | .ident s => .ident s
  | .lineNumber => .ident (Nat.repr line)

/-- `#define TOKENPASTE(x, y) x ## y`: the operands of `##` are pasted as
spelled, without being expanded first. -/
def TOKENPASTE (x y : PPToken) : String := x.spelling ++ y.spelling

/-- `#define TOKENPASTE2(x, y) TOKENPASTE(x, y)`: the arguments are not operands
of `##` here, so they are completely expanded before `TOKENPASTE` is applied. -/
def TOKENPASTE2 (line : Nat) (x y : PPToken) : String :=
  TOKENPASTE (x.expand line) (y.expand line)

/-- `#define GENSYM TOKENPASTE2(gensym_,__LINE__)` expanded at source line `line`. -/
def GENSYM (line : Nat) : String :=
  TOKENPASTE2 line (.ident "gensym_") .lineNumber

/-! ## Statements produced by the check -/

/-- Identifiers of the expanded code. -/
abbrev Ident := String

/-- Types written in the expansion. -/
inductive CType where
  | uintptr_t
  | bool
  /-- The type `decltype (&CLASSNAME::FUNCTION)`. -/
  | decltypeAddrOf (cls fn : Ident)
  deriving DecidableEq, Repr

/-- Expressions written in the expansion. -/
inductive Expr where
  /-- The call `RETURN_ADDRESS()`. -/
  | callReturnAddress
  /-- The address-of expression `&CLASSNAME::FUNCTION`. -/
  | addrOf (cls fn : Ident)
  /-- The conversion `(uintptr_t)(void*&)v` of a function-pointer variable. -/
  | reinterpret (v : Ident)
  /-- The test `(a-b>k)` on two `uintptr_t` variables. -/
  | diffGt (a b : Ident) (k : Nat)
  deriving DecidableEq, Repr

/-- Statements written in the expansion. -/
inductive Stmt where
  /-- A declaration with initialiser, `T x = e;`. -/
  | declInit (ty : CType) (x : Ident) (e : Expr)
  /-- A declaration without initialiser, `T x;`. -/
  | decl (ty : CType) (x : Ident)
  /-- An assignment `x = e;`. -/
  | assign (x : Ident) (e : Expr)
  deriving DecidableEq, Repr

/-- Body of `#define CHECK_INLINED0(CLASSNAME,FUNCTION,VAR,BOOLEAN)`
(check_inlined.hpp lines 89-102) after comment removal and parameter
substitution. The parameter `VAR` occurs only inside comments of the body. -/
def CHECK_INLINED0 (CLASSNAME FUNCTION _VAR BOOLEAN : Ident) : List Stmt :=
  [ .declInit .uintptr_t "EXEC_ADDR" .callReturnAddress,
    .decl .uintptr_t "FUNC_ADDR",
    .decl .bool BOOLEAN,
    .declInit (.decltypeAddrOf CLASSNAME FUNCTION) "VADDR" (.addrOf CLASSNAME FUNCTION),
    .assign "FUNC_ADDR" (.reinterpret "VADDR"),
    .assign BOOLEAN (.diffGt "EXEC_ADDR" "FUNC_ADDR" 0x40) ]

/-- `#define CHECK_INLINED(CLASSNAME,FUNCTION,BOOLEAN)` expanded at source line
`line`: `CHECK_INLINED0(CLASSNAME,FUNCTION,GENSYM,BOOLEAN)`. -/
def CHECK_INLINED (line : Nat) (CLASSNAME FUNCTION BOOLEAN : Ident) : List Stmt :=
  CHECK_INLINED0 CLASSNAME FUNCTION (GENSYM line) BOOLEAN

/-- Identifier a statement declares, if it is a declaration. -/
def Stmt.declares : Stmt → Option Ident
  | .declInit _ x _ => some x
  | .decl _ x => some x
  | .assign _ _ => none

/-- Identifiers declared by a statement sequence, in order. -/
def declaredIdents (ss : List Stmt) : List Ident :=
  ss.filterMap Stmt.declares

/-! ## Execution -/

/-- Platform inputs of the check. -/
structure Machine where
  /-- Result of `__builtin_return_address (level)` in the frame of the probe. -/
  builtin_return_address : Nat → Nat
  /-- The address decoding `__builtin_extract_return_addr`. -/
  builtin_extract_return_addr : Nat → Nat
  /-- Entry address of the standalone body of `cls::fn`, as stored in a pointer
  to that function. -/
  entry : Ident → Ident → Nat

/-- The probe (check_inlined.hpp lines 64-66):
`return (uintptr_t) __builtin_extract_return_addr (__builtin_return_address (0));` -/
def RETURN_ADDRESS (m : Machine) : Nat :=
  m.builtin_extract_return_addr (m.builtin_return_address 0) % UINTPTR_MOD

/-- Values held by variables. -/
inductive Val where
  /-- Declared without initialiser and not yet assigned. -/
  | uninit
  /-- A `uintptr_t`. -/
  | addr (n : Nat)
  /-- A `bool`. -/
  | flag (b : Bool)
  /-- A pointer to a function or to a non-virtual member function; `n` is the
  function address stored in its first word. -/
  | fnptr (n : Nat)
  /-- An `int`, such as the counter `GLOBALX` of the demo. -/
  | int (i : Int)
  deriving DecidableEq, Repr

/-- Observable steps of an expansion, in program order. -/
inductive Event where
  /-- The probe `RETURN_ADDRESS()` was called. -/
  | probe
  /-- The address of `cls::fn` was taken. -/
  | resolve (cls fn : Ident)
  /-- A function pointer was read back as an integer address. -/
  | convert
  /-- The distance was computed and compared with the threshold. -/
  | compare
  deriving DecidableEq, Repr

/-- Program state around an expansion: namespace-scope variables, the variables
of the block the code is expanded into, and the steps executed so far. -/
structure State where
  globals : List (Ident × Val)
  locals : List (Ident × Val)
  trace : List Event
  deriving DecidableEq, Repr

/-- Name lookup: the enclosing block first, then namespace scope. -/
def State.lookupVar (σ : State) (x : Ident) : Option Val :=
  match σ.locals.lookup x with
  | some v => some v
  | none => σ.globals.lookup x

/-- Replace the value of the first binding of `x`, if there is one. -/
def setBinding (x : Ident) (v : Val) : List (Ident × Val) → Option (List (Ident × Val))
  | [] => none
  | (y, w) :: rest =>
    if y = x then some ((y, v) :: rest)
    else (setBinding x v rest).map (fun r => (y, w) :: r)

/-- Declare `x` in the enclosing block; a second declaration of the same name
in that block is ill-formed. -/
def State.declare (σ : State) (x : Ident) (v : Val) : Option State :=
  match σ.locals.lookup x with
  | some _ => none
  | none => some { σ with locals := (x, v) :: σ.locals }

/-- Store to `x`: the innermost binding is written. -/
def State.store (σ : State) (x : Ident) (v : Val) : Option State :=
  match setBinding x v σ.locals with
  | some ls => some { σ with locals := ls }
  | none =>
    match setBinding x v σ.globals with
    | some gs => some { σ with globals := gs }
    | none => none

/-- Evaluate an expression; the result is the value and the state with the
steps of the evaluation recorded. -/
def evalExpr (m : Machine) (σ : State) : Expr → Option (Val × State)
  | .callReturnAddress =>
    some (.addr (RETURN_ADDRESS m), { σ with trace := σ.trace ++ [.probe] })
  | .addrOf cls fn =>
    some (.fnptr (m.entry cls fn), { σ with trace := σ.trace ++ [.resolve cls fn] })
  | .reinterpret v =>
    match σ.lookupVar v with
    | some (.fnptr n) =>
      some (.addr (n % UINTPTR_MOD), { σ with trace := σ.trace ++ [.convert] })
    | _ => none
  | .diffGt a b k =>
    match σ.lookupVar a, σ.lookupVar b with
    | some (.addr x), some (.addr y) =>
      some (.flag (decide (uintptr_sub x y > k)), { σ with trace := σ.trace ++ [.compare] })
    | _, _ => none

/-- Execute one statement. -/
def execStmt (m : Machine) (σ : State) : Stmt → Option State
  | .declInit _ x e =>
    match evalExpr m σ e with
    | some (v, σ1) => σ1.declare x v
    | none => none
  | .decl _ x => σ.declare x .uninit
  | .assign x e =>
    match evalExpr m σ e with
    | some (v, σ1) => σ1.store x v
    | none => none

/-- Execute a statement sequence in order. -/
def execStmts (m : Machine) (σ : State) : List Stmt → Option State
  | [] => some σ
  | s :: rest =>
    match execStmt m σ s with
    | some σ1 => execStmts m σ1 rest
    | none => none

/-- The block the check is expanded into does not yet declare any of the four
names the expansion declares, and the caller-chosen name is not one of the three
fixed names: the condition under which the expanded declarations are well-formed. -/
def freshSite (σ : State) (BOOLEAN : Ident) : Prop :=
  BOOLEAN ∉ ["EXEC_ADDR", "FUNC_ADDR", "VADDR"] ∧
    ∀ x ∈ ["EXEC_ADDR", "FUNC_ADDR", BOOLEAN, "VADDR"], σ.locals.lookup x = none

instance freshSiteDecidable (σ : State) (BOOLEAN : Ident) : Decidable (freshSite σ BOOLEAN) := by
  unfold freshSite
  infer_instance

/-- State reached by an expansion of the check started in `σ` at a fresh site. -/
def expansionResult (m : Machine) (σ : State) (CLASSNAME FUNCTION BOOLEAN : Ident) : State :=
  { globals := σ.globals
    locals := ("VADDR", .fnptr (m.entry CLASSNAME FUNCTION))
      :: (BOOLEAN, .flag (classify (RETURN_ADDRESS m) (m.entry CLASSNAME FUNCTION % UINTPTR_MOD)))
      :: ("FUNC_ADDR", .addr (m.entry CLASSNAME FUNCTION % UINTPTR_MOD))
      :: ("EXEC_ADDR", .addr (RETURN_ADDRESS m)) :: σ.locals
    trace := σ.trace ++ [.probe, .resolve CLASSNAME FUNCTION, .convert, .compare] }

/-- Value of a string of decimal digits read left to right. -/
def decimalValue (cs : List Char) : Nat :=
  cs.foldl (fun acc c => 10 * acc + (c.toNat - 48)) 0

/-! ## The demo of main.cpp -/

/-- Code placement of a build of the demo: for each function of
`SimpleInlineTest`, the return address of the probe call in the copy of its body
that is executed, the address decoding, and the entry addresses. -/
structure Layout where
  probeReturn : Ident → Nat
  builtin_extract_return_addr : Nat → Nat
  entry : Ident → Ident → Nat

/-- Platform inputs seen by the check expanded in the body of `fn`. -/
def Layout.machineIn (L : Layout) (fn : Ident) : Machine :=
  { builtin_return_address := fun _ => L.probeReturn fn
    builtin_extract_return_addr := L.builtin_extract_return_addr
    entry := L.entry }

/-- Running demo process: namespace-scope variables, steps of the checks executed
so far, and the strings written to standard output. -/
structure Process where
  globals : List (Ident × Val)
  trace : List Event
  stdout : List String
  deriving DecidableEq, Repr

/-- Right-justify `s` in a field of the given width (`%40s`, `%6s`). -/
def padLeft (width : Nat) (s : String) : String :=
  String.mk (List.replicate (width - s.length) ' ') ++ s

/-- The report line
`printf("%40s %6s inlined.\n", __PRETTY_FUNCTION__, fINLINED ? "IS" : "IS NOT");` -/
def report (pretty : String) (fINLINED : Bool) : String :=
  padLeft 40 pretty ++ " " ++ padLeft 6 (if fINLINED then "IS" else "IS NOT") ++ " inlined.\n"

/-- The statement `x++;` on an `int` variable; signed overflow is undefined. -/
def increment (σ : State) (x : Ident) : Option State :=
  match σ.lookupVar x with
  | some (.int i) => if i + 1 < 2 ^ 31 then σ.store x (.int (i + 1)) else none
  | _ => none

/-- The part common to the four demo functions: the check at source line `line`
in a new block, the report line, and `GLOBALX++`. -/
def demoBody (L : Layout) (line : Nat) (fn pretty : Ident) (p : Process) : Option Process :=
  match execStmts (L.machineIn fn) { globals := p.globals, locals := [], trace := p.trace }
      (CHECK_INLINED line "SimpleInlineTest" fn "fINLINED") with
  | none => none
  | some σ =>
    match σ.lookupVar "fINLINED" with
    | some (.flag b) =>
      match increment σ "GLOBALX" with
      | some σ1 =>
        some { globals := σ1.globals, trace := σ1.trace, stdout := p.stdout ++ [report pretty b] }
      | none => none
    | _ => none

/-- `SimpleInlineTest::func3` (main.cpp lines 44-49). -/
def func3 (L : Layout) (p : Process) : Option Process :=
  demoBody L 46 "func3" "static void SimpleInlineTest::func3()" p

/-- `SimpleInlineTest::func2` (main.cpp lines 52-58). -/
def func2 (L : Layout) (p : Process) : Option Process :=
  (demoBody L 54 "func2" "static void SimpleInlineTest::func2()" p).bind (func3 L)

/-- `SimpleInlineTest::func1` (main.cpp lines 62-69). -/
def func1 (L : Layout) (p : Process) : Option Process :=
  (demoBody L 65 "func1" "void SimpleInlineTest::func1()" p).bind (func2 L)

/-- `SimpleInlineTest::func0` (main.cpp lines 72-78). -/
def func0 (L : Layout) (p : Process) : Option Process :=
  (demoBody L 74 "func0" "void SimpleInlineTest::func0()" p).bind (func1 L)

/-- First `printf` of `main`. -/
def banner : String :=
  "\nmain.cpp: A test of check_inlined.hpp macro: \n\nCHECK_INLINED(CLASSNAME,FUNCTION,IS_INLINED)\n" ++
    "if (IS_INLINED) \x7b DoThis(); \x7d else \x7b DoThat(); \x7d;\n\n"

/-- `main` (main.cpp lines 81-89), started with `int GLOBALX{0};`. -/
def main (L : Layout) : Option Process :=
  let p0 : Process := { globals := [("GLOBALX", .int 0)], trace := [], stdout := [] }
  let p1 : Process := { p0 with globals := [("GLOBALX", .int 0)] }
  let p2 : Process := { p1 with stdout := p1.stdout ++ [banner] }
  (func0 L p2).map fun p3 =>
    { p3 with stdout := p3.stdout ++ ["\nTry building with -O0 or -O3 or -Os.\n\n"] }

/-! ## Sample inputs -/

/-- A sample platform: the probe returns to `0x401234`, every function body
starts at `0x401220`, and return addresses carry no encoding bits. -/
def sampleMachine : Machine :=
  { builtin_return_address := fun _ => 0x401234
    builtin_extract_return_addr := fun a => a
    entry := fun _ _ => 0x401220 }

/-- A sample state: the counter of the demo at namespace scope and an empty block. -/
def sampleState : State :=
  { globals := [("GLOBALX", .int 0)], locals := [], trace := [] }

/-- A second sample state, with a different counter value and an unrelated local. -/
def sampleState2 : State :=
  { globals := [("GLOBALX", .int 3)], locals := [("this", .addr 0x7ffd0000)], trace := [.probe] }

/-! ## Arithmetic of the distance test -/

theorem uintptr_sub_lt (a b : Nat) : uintptr_sub a b < 2 ^ 64 := by
  unfold uintptr_sub UINTPTR_MOD
  omega

/-- The wrapping difference agrees with the integer difference reduced modulo `2 ^ 64`. -/
theorem uintptr_sub_int (a b : Nat) (ha : a < 2 ^ 64) (hb : b < 2 ^ 64) :
    (uintptr_sub a b : Int) = ((a : Int) - (b : Int)) % 2 ^ 64 := by
  unfold uintptr_sub UINTPTR_MOD
  omega

theorem classify_eq_true_iff (a b : Nat) : classify a b = true ↔ 64 < uintptr_sub a b := by
  simp [classify]

theorem classify_eq_false_iff (a b : Nat) : classify a b = false ↔ uintptr_sub a b ≤ 64 := by
  simp [classify]

theorem classify_eq_int (a b : Nat) (ha : a < 2 ^ 64) (hb : b < 2 ^ 64) :
    classify a b = decide ((((a : Int) - (b : Int)) % 2 ^ 64) > 0x40) := by
  have h := uintptr_sub_int a b ha hb
  unfold classify
  rw [decide_eq_decide, ← h]
  omega

theorem uintptr_sub_reloc (a b k : Nat) (ha : a < 2 ^ 64) (hb : b < 2 ^ 64) :
    uintptr_sub ((a + k) % UINTPTR_MOD) ((b + k) % UINTPTR_MOD) = uintptr_sub a b := by
  unfold uintptr_sub UINTPTR_MOD
  omega

theorem RETURN_ADDRESS_lt (m : Machine) : RETURN_ADDRESS m < 2 ^ 64 := by
  unfold RETURN_ADDRESS UINTPTR_MOD
  omega

/-! ## Execution of an expansion -/

/-- At a fresh site every statement of the expansion executes, and the final
state is `expansionResult`. -/
theorem execStmts_CHECK_INLINED0 (m : Machine) (σ : State) (C F V B : Ident)
    (h : freshSite σ B) :
    execStmts m σ (CHECK_INLINED0 C F V B) = some (expansionResult m σ C F B) := by
  obtain ⟨hB, hl⟩ := h
  simp only [List.mem_cons, List.mem_singleton, List.not_mem_nil, or_false, not_or] at hB
  obtain ⟨hB1, hB2, hB3⟩ := hB
  have h1 := hl "EXEC_ADDR" (by simp)
  have h2 := hl "FUNC_ADDR" (by simp)
  have h3 := hl B (by simp)
  have h4 := hl "VADDR" (by simp)
  have e1 : ("EXEC_ADDR" == B) = false := by simpa using Ne.symm hB1
  have e2 : ("FUNC_ADDR" == B) = false := by simpa using Ne.symm hB2
  have e3 : ("VADDR" == B) = false := by simpa using Ne.symm hB3
  have e4 : (B == "EXEC_ADDR") = false := by simpa using hB1
  have e5 : (B == "FUNC_ADDR") = false := by simpa using hB2
  have e6 : (B == "VADDR") = false := by simpa using hB3
  simp [CHECK_INLINED0, execStmts, execStmt, evalExpr, State.declare, State.store, setBinding,
    State.lookupVar, List.lookup, h1, h2, h3, h4, hB1, hB2, hB3, Ne.symm hB1, Ne.symm hB2,
    Ne.symm hB3, e1, e2, e3, e4, e5, e6, expansionResult, classify]

theorem lookupVar_expansionResult (m : Machine) (σ : State) (C F B : Ident)
    (hB : B ≠ "VADDR") :
    (expansionResult m σ C F B).lookupVar B
      = some (.flag (classify (RETURN_ADDRESS m) (m.entry C F % UINTPTR_MOD))) := by
  have e : (B == "VADDR") = false := by simpa using hB
  simp [expansionResult, State.lookupVar, List.lookup, e]

theorem lookupVar_expansionResult_other (m : Machine) (σ : State) (C F B x : Ident)
    (hx : x ∉ ["EXEC_ADDR", "FUNC_ADDR", B, "VADDR"]) :
    (expansionResult m σ C F B).lookupVar x = σ.lookupVar x := by
  simp only [List.mem_cons, List.mem_singleton, List.not_mem_nil, or_false, not_or] at hx
  obtain ⟨h1, h2, h3, h4⟩ := hx
  have e1 : (x == "EXEC_ADDR") = false := by simpa using h1
  have e2 : (x == "FUNC_ADDR") = false := by simpa using h2
  have e3 : (x == B) = false := by simpa using h3
  have e4 : (x == "VADDR") = false := by simpa using h4
  simp [expansionResult, State.lookupVar, List.lookup, e1, e2, e3, e4]

theorem execStmts_append (m : Machine) (σ : State) (xs ys : List Stmt) :
    execStmts m σ (xs ++ ys) = (execStmts m σ xs).bind (fun σ1 => execStmts m σ1 ys) := by
  induction xs generalizing σ with
  | nil => simp [execStmts]
  | cons s rest ih =>
    simp only [List.cons_append, execStmts]
    cases execStmt m σ s with
    | none => simp
    | some σ1 => simpa using ih σ1

/-- Away from a fresh site some declaration of the expansion is a redeclaration
and the expansion is rejected. -/
theorem execStmts_CHECK_INLINED0_redeclared (m : Machine) (σ : State) (C F V B : Ident)
    (h : ¬ freshSite σ B) : execStmts m σ (CHECK_INLINED0 C F V B) = none := by
  unfold freshSite at h
  simp only [List.mem_cons, List.mem_singleton, List.not_mem_nil, or_false, not_or,
    forall_eq_or_imp, forall_eq, not_and_or, not_not] at h
  by_cases hB1 : B = "EXEC_ADDR"
  · subst hB1
    cases h1 : σ.locals.lookup "EXEC_ADDR" <;>
    cases h2 : σ.locals.lookup "FUNC_ADDR" <;>
      simp [CHECK_INLINED0, execStmts, execStmt, evalExpr, State.declare, List.lookup, h1, h2]
  by_cases hB2 : B = "FUNC_ADDR"
  · subst hB2
    cases h1 : σ.locals.lookup "EXEC_ADDR" <;>
    cases h2 : σ.locals.lookup "FUNC_ADDR" <;>
      simp [CHECK_INLINED0, execStmts, execStmt, evalExpr, State.declare, List.lookup, h1, h2]
  by_cases hB3 : B = "VADDR"
  · subst hB3
    cases h1 : σ.locals.lookup "EXEC_ADDR" <;>
    cases h2 : σ.locals.lookup "FUNC_ADDR" <;>
    cases h3 : σ.locals.lookup "VADDR" <;>
      simp [CHECK_INLINED0, execStmts, execStmt, evalExpr, State.declare, List.lookup, h1, h2, h3]
  have e1 : ("EXEC_ADDR" == B) = false := by simpa using Ne.symm hB1
  have e2 : ("FUNC_ADDR" == B) = false := by simpa using Ne.symm hB2
  have e3 : ("VADDR" == B) = false := by simpa using Ne.symm hB3
  have e4 : (B == "EXEC_ADDR") = false := by simpa using hB1
  have e5 : (B == "FUNC_ADDR") = false := by simpa using hB2
  have e6 : (B == "VADDR") = false := by simpa using hB3
  cases h1 : σ.locals.lookup "EXEC_ADDR" <;>
  cases h2 : σ.locals.lookup "FUNC_ADDR" <;>
  cases h3 : σ.locals.lookup B <;>
  cases h4 : σ.locals.lookup "VADDR" <;>
    simp [CHECK_INLINED0, execStmts, execStmt, evalExpr, State.declare, List.lookup, h1, h2, h3,
      h4, e1, e2, e3, e4, e5, e6]
  simp [h1, h2, h3, h4, hB1, hB2, hB3] at h

/-- The expansion is well-formed exactly at fresh sites. -/
theorem execStmts_CHECK_INLINED0_isSome_iff (m : Machine) (σ : State) (C F V B : Ident) :
    (execStmts m σ (CHECK_INLINED0 C F V B)).isSome = true ↔ freshSite σ B := by
  constructor
  · intro h
    by_contra hn
    rw [execStmts_CHECK_INLINED0_redeclared m σ C F V B hn] at h
    simp at h
  · intro h
    rw [execStmts_CHECK_INLINED0 m σ C F V B h]
    rfl

theorem freshSite_expansionResult (m : Machine) (σ : State) (C F B B2 : Ident) :
    ¬ freshSite (expansionResult m σ C F B) B2 := by
  intro h
  have := h.2 "EXEC_ADDR" (by simp)
  by_cases hB : B = "EXEC_ADDR"
  · subst hB
    simp [expansionResult, List.lookup] at this
  · have e : ("EXEC_ADDR" == B) = false := by simpa using Ne.symm hB
    simp [expansionResult, List.lookup, e] at this

/-- Two expansions placed in the same block are rejected, whatever the names
passed as `VAR` and `BOOLEAN`. -/
theorem execStmts_two_expansions (m : Machine) (σ : State)
    (C1 F1 V1 B1 C2 F2 V2 B2 : Ident) :
    execStmts m σ (CHECK_INLINED0 C1 F1 V1 B1 ++ CHECK_INLINED0 C2 F2 V2 B2) = none := by
  rw [execStmts_append]
  by_cases h : freshSite σ B1
  · rw [execStmts_CHECK_INLINED0 m σ C1 F1 V1 B1 h]
    exact execStmts_CHECK_INLINED0_redeclared m _ C2 F2 V2 B2
      (freshSite_expansionResult m σ C1 F1 B1 B2)
  · rw [execStmts_CHECK_INLINED0_redeclared m σ C1 F1 V1 B1 h]
    rfl

/-! ## Decimal line numbers -/

theorem digitChar_value (k : Nat) (hk : k < 10) : (Nat.digitChar k).toNat - 48 = k := by
  interval_cases k <;> decide

theorem toDigitsCore_value (fuel : Nat) : ∀ (n : Nat) (ds : List Char), n < fuel →
    ∃ pre, Nat.toDigitsCore 10 fuel n ds = pre ++ ds ∧ decimalValue pre = n := by
  induction fuel with
  | zero => intro n ds h; omega
  | succ fuel ih =>
    intro n ds h
    unfold Nat.toDigitsCore
    by_cases h0 : n / 10 = 0
    · refine ⟨[Nat.digitChar (n % 10)], by simp [h0], ?_⟩
      simp only [decimalValue, List.foldl_cons, List.foldl_nil]
      rw [digitChar_value _ (Nat.mod_lt _ (by decide))]
      omega
    · obtain ⟨pre, hpre, hval⟩ := ih (n / 10) (Nat.digitChar (n % 10) :: ds) (by omega)
      refine ⟨pre ++ [Nat.digitChar (n % 10)], by simp [h0, hpre], ?_⟩
      unfold decimalValue at hval ⊢
      rw [List.foldl_append, hval]
      simp only [List.foldl_cons, List.foldl_nil]
      rw [digitChar_value _ (Nat.mod_lt _ (by decide))]
      omega

/-- Reading back the decimal rendering of `n` gives `n`. -/
theorem decimalValue_repr (n : Nat) : decimalValue (Nat.repr n).data = n := by
  obtain ⟨pre, hpre, hval⟩ := toDigitsCore_value (n + 1) n [] (by omega)
  simp only [Nat.repr, Nat.toDigits, List.asString, hpre, List.append_nil, hval]

theorem GENSYM_eq (line : Nat) : GENSYM line = "gensym_" ++ Nat.repr line := rfl

/-- A single-stage paste would not expand `__LINE__`. -/
theorem TOKENPASTE_lineNumber :
    TOKENPASTE (.ident "gensym_") .lineNumber = "gensym___LINE__" := by
  decide

/-! ## The demo -/

theorem demoBody_eq (L : Layout) (line : Nat) (fn pretty : Ident) (p : Process) (i : Int)
    (hg : p.globals = [("GLOBALX", .int i)]) (hi : i + 1 < 2 ^ 31) :
    demoBody L line fn pretty p = some
      { globals := [("GLOBALX", .int (i + 1))]
        trace := p.trace ++ [.probe, .resolve "SimpleInlineTest" fn, .convert, .compare]
        stdout := p.stdout ++ [report pretty
          (classify (RETURN_ADDRESS (L.machineIn fn))
            (L.entry "SimpleInlineTest" fn % UINTPTR_MOD))] } := by
  have hf : freshSite { globals := p.globals, locals := [], trace := p.trace } "fINLINED" :=
    ⟨by decide, fun _ _ => rfl⟩
  unfold demoBody CHECK_INLINED
  rw [execStmts_CHECK_INLINED0 _ _ _ _ _ _ hf]
  simp only [lookupVar_expansionResult _ _ _ _ _ (show "fINLINED" ≠ "VADDR" by decide)]
  have hi2 : i + 1 < 2147483648 := by omega
  simp [increment, expansionResult, State.lookupVar, State.store, setBinding, List.lookup, hg, hi2]
  rfl

/-- Running `main` under any code placement: the four functions run once each in
the order func0, func1, func2, func3, each reports the value of the distance
test on its own probe and entry addresses, and `GLOBALX` ends at 4. -/
theorem main_eq (L : Layout) :
    main L = some
      { globals := [("GLOBALX", .int 4)]
        trace := [.probe, .resolve "SimpleInlineTest" "func0", .convert, .compare,
          .probe, .resolve "SimpleInlineTest" "func1", .convert, .compare,
          .probe, .resolve "SimpleInlineTest" "func2", .convert, .compare,
          .probe, .resolve "SimpleInlineTest" "func3", .convert, .compare]
        stdout := [banner,
          report "void SimpleInlineTest::func0()"
            (classify (RETURN_ADDRESS (L.machineIn "func0")) (L.entry "SimpleInlineTest" "func0" % UINTPTR_MOD)),
          report "void SimpleInlineTest::func1()"
            (classify (RETURN_ADDRESS (L.machineIn "func1")) (L.entry "SimpleInlineTest" "func1" % UINTPTR_MOD)),
          report "static void SimpleInlineTest::func2()"
            (classify (RETURN_ADDRESS (L.machineIn "func2")) (L.entry "SimpleInlineTest" "func2" % UINTPTR_MOD)),
          report "static void SimpleInlineTest::func3()"
            (classify (RETURN_ADDRESS (L.machineIn "func3")) (L.entry "SimpleInlineTest" "func3" % UINTPTR_MOD)),
          "\nTry building with -O0 or -O3 or -Os.\n\n"] } := by
  unfold main func0 func1 func2 func3
  simp only []
  rw [demoBody_eq L 74 _ _ _ 0 rfl (by decide)]
  simp only [Option.some_bind]
  rw [demoBody_eq L 65 _ _ _ 1 rfl (by decide)]
  simp only [Option.some_bind]
  rw [demoBody_eq L 54 _ _ _ 2 rfl (by decide)]
  simp only [Option.some_bind]
  rw [demoBody_eq L 46 _ _ _ 3 rfl (by decide)]
  simp

/-! ## The claims -/

/-- C1: at every site where the expansion is well-formed, `CHECK_INLINED0` and
`CHECK_INLINED` bind the caller-chosen boolean to the truth value of
`((exec - func) mod 2^64) > 0x40`, where `exec` is the result of the probe and
`func` the resolved entry address: the distance is the wrapping unsigned
difference, the threshold is 64 and the comparison is strict. -/
theorem C1_boolean_is_wrapping_distance_test (m : Machine) (σ : State) (line : Nat)
    (C F V B : Ident) (exec func : Nat)
    (hexec : RETURN_ADDRESS m = exec) (hfunc : m.entry C F % UINTPTR_MOD = func)
    (hsite : freshSite σ B) :
    (∃ τ, execStmts m σ (CHECK_INLINED0 C F V B) = some τ ∧
      τ.lookupVar B = some (.flag (decide ((((exec : Int) - (func : Int)) % 2 ^ 64) > 0x40)))) ∧
    (∃ τ, execStmts m σ (CHECK_INLINED line C F B) = some τ ∧
      τ.lookupVar B = some (.flag (decide ((((exec : Int) - (func : Int)) % 2 ^ 64) > 0x40)))) := by
  have hB : B ≠ "VADDR" := fun h => hsite.1 (by simp [h])
  have he : exec < 2 ^ 64 := hexec ▸ RETURN_ADDRESS_lt m
  have hf : func < 2 ^ 64 := by
    rw [← hfunc]
    unfold UINTPTR_MOD
    omega
  have key : ∀ W : Ident, ∃ τ, execStmts m σ (CHECK_INLINED0 C F W B) = some τ ∧
      τ.lookupVar B = some (.flag (decide ((((exec : Int) - (func : Int)) % 2 ^ 64) > 0x40))) := by
    intro W
    refine ⟨_, execStmts_CHECK_INLINED0 m σ C F W B hsite, ?_⟩
    rw [lookupVar_expansionResult m σ C F B hB, hexec, hfunc, classify_eq_int exec func he hf]
  exact ⟨key V, key (GENSYM line)⟩

theorem C1_boolean_is_wrapping_distance_test_witness :
    RETURN_ADDRESS sampleMachine = 0x401234 ∧
    sampleMachine.entry "SimpleInlineTest" "func0" % UINTPTR_MOD = 0x401220 ∧
    freshSite sampleState "fINLINED" ∧
    (∃ τ, execStmts sampleMachine sampleState
        (CHECK_INLINED0 "SimpleInlineTest" "func0" "gensym_74" "fINLINED") = some τ ∧
      τ.lookupVar "fINLINED"
        = some (.flag (decide (((((0x401234 : Nat) : Int) - ((0x401220 : Nat) : Int)) % 2 ^ 64) > 0x40)))) ∧
    (∃ τ, execStmts sampleMachine sampleState
        (CHECK_INLINED 74 "SimpleInlineTest" "func0" "fINLINED") = some τ ∧
      τ.lookupVar "fINLINED"
        = some (.flag (decide (((((0x401234 : Nat) : Int) - ((0x401220 : Nat) : Int)) % 2 ^ 64) > 0x40)))) :=
  ⟨by decide, by decide, by decide,
    C1_boolean_is_wrapping_distance_test sampleMachine sampleState 74 "SimpleInlineTest" "func0"
      "gensym_74" "fINLINED" 0x401234 0x401220 (by decide) (by decide) (by decide)⟩

/-- C2: for 64-bit `exec` and `func` the distance test is false (not inlined)
exactly when `exec = (func + k) mod 2^64` for some `k` with `0 ≤ k ≤ 64`, and
true (inlined) otherwise; a distance of exactly 64 is not inlined and a distance
of 65 is inlined. -/
theorem C2_not_inlined_iff_within_64_bytes (exec func : Nat)
    (he : exec < 2 ^ 64) (hf : func < 2 ^ 64) :
    (classify exec func = false ↔ ∃ k, k ≤ 64 ∧ exec = (func + k) % 2 ^ 64) ∧
    (classify exec func = true ↔ ¬ ∃ k, k ≤ 64 ∧ exec = (func + k) % 2 ^ 64) ∧
    classify ((func + 64) % 2 ^ 64) func = false ∧
    classify ((func + 65) % 2 ^ 64) func = true := by
  have hiff : classify exec func = false ↔ ∃ k, k ≤ 64 ∧ exec = (func + k) % 2 ^ 64 := by
    constructor
    · intro h
      rw [classify_eq_false_iff] at h
      refine ⟨uintptr_sub exec func, h, ?_⟩
      unfold uintptr_sub UINTPTR_MOD at *
      omega
    · rintro ⟨k, hk, rfl⟩
      rw [classify_eq_false_iff]
      unfold uintptr_sub UINTPTR_MOD
      omega
  refine ⟨hiff, ?_, ?_, ?_⟩
  · rw [← hiff]
    simp
  · rw [classify_eq_false_iff]
    unfold uintptr_sub UINTPTR_MOD
    omega
  · rw [classify_eq_true_iff]
    unfold uintptr_sub UINTPTR_MOD
    omega

theorem C2_not_inlined_iff_within_64_bytes_witness :
    (0x401234 : Nat) < 2 ^ 64 ∧ (0x401220 : Nat) < 2 ^ 64 ∧
    ((classify 0x401234 0x401220 = false ↔ ∃ k, k ≤ 64 ∧ 0x401234 = (0x401220 + k) % 2 ^ 64) ∧
    (classify 0x401234 0x401220 = true ↔ ¬ ∃ k, k ≤ 64 ∧ 0x401234 = (0x401220 + k) % 2 ^ 64) ∧
    classify ((0x401220 + 64) % 2 ^ 64) 0x401220 = false ∧
    classify ((0x401220 + 65) % 2 ^ 64) 0x401220 = true) :=
  ⟨by decide, by decide,
    C2_not_inlined_iff_within_64_bytes 0x401234 0x401220 (by decide) (by decide)⟩

/-- C5: two expansions of the check whose probes return the same address and
whose functions resolve to the same entry address bind the same boolean,
whatever the states they start from; each expansion leaves the namespace-scope
variables (such as `GLOBALX`) and every variable it does not declare unchanged. -/
theorem C5_classification_deterministic_and_stateless (m1 m2 : Machine) (σ1 σ2 : State)
    (line1 line2 : Nat) (C1 F1 B1 C2 F2 B2 : Ident)
    (hexec : RETURN_ADDRESS m1 = RETURN_ADDRESS m2)
    (hfunc : m1.entry C1 F1 % UINTPTR_MOD = m2.entry C2 F2 % UINTPTR_MOD)
    (h1 : freshSite σ1 B1) (h2 : freshSite σ2 B2) :
    ∃ τ1 τ2 b,
      execStmts m1 σ1 (CHECK_INLINED line1 C1 F1 B1) = some τ1 ∧
      execStmts m2 σ2 (CHECK_INLINED line2 C2 F2 B2) = some τ2 ∧
      τ1.lookupVar B1 = some (.flag b) ∧ τ2.lookupVar B2 = some (.flag b) ∧
      τ1.globals = σ1.globals ∧ τ2.globals = σ2.globals ∧
      (∀ x, x ∉ declaredIdents (CHECK_INLINED line1 C1 F1 B1) → τ1.lookupVar x = σ1.lookupVar x) ∧
      (∀ x, x ∉ declaredIdents (CHECK_INLINED line2 C2 F2 B2) → τ2.lookupVar x = σ2.lookupVar x) := by
  have hB1 : B1 ≠ "VADDR" := fun h => h1.1 (by simp [h])
  have hB2 : B2 ≠ "VADDR" := fun h => h2.1 (by simp [h])
  refine ⟨expansionResult m1 σ1 C1 F1 B1, expansionResult m2 σ2 C2 F2 B2,
    classify (RETURN_ADDRESS m1) (m1.entry C1 F1 % UINTPTR_MOD),
    execStmts_CHECK_INLINED0 m1 σ1 C1 F1 _ B1 h1, execStmts_CHECK_INLINED0 m2 σ2 C2 F2 _ B2 h2,
    lookupVar_expansionResult m1 σ1 C1 F1 B1 hB1, ?_, rfl, rfl, ?_, ?_⟩
  · rw [lookupVar_expansionResult m2 σ2 C2 F2 B2 hB2, hexec, hfunc]
  · intro x hx
    exact lookupVar_expansionResult_other m1 σ1 C1 F1 B1 x hx
  · intro x hx
    exact lookupVar_expansionResult_other m2 σ2 C2 F2 B2 x hx

theorem C5_classification_deterministic_and_stateless_witness :
    ∃ τ1 τ2 b,
      execStmts sampleMachine sampleState
        (CHECK_INLINED 74 "SimpleInlineTest" "func0" "fINLINED") = some τ1 ∧
      execStmts sampleMachine sampleState2
        (CHECK_INLINED 74 "SimpleInlineTest" "func0" "fINLINED") = some τ2 ∧
      τ1.lookupVar "fINLINED" = some (.flag b) ∧ τ2.lookupVar "fINLINED" = some (.flag b) ∧
      τ1.globals = sampleState.globals ∧ τ2.globals = sampleState2.globals ∧
      (∀ x, x ∉ declaredIdents (CHECK_INLINED 74 "SimpleInlineTest" "func0" "fINLINED") →
        τ1.lookupVar x = sampleState.lookupVar x) ∧
      (∀ x, x ∉ declaredIdents (CHECK_INLINED 74 "SimpleInlineTest" "func0" "fINLINED") →
        τ2.lookupVar x = sampleState2.lookupVar x) :=
  C5_classification_deterministic_and_stateless sampleMachine sampleMachine sampleState
    sampleState2 74 74 "SimpleInlineTest" "func0" "fINLINED" "SimpleInlineTest" "func0" "fINLINED"
    rfl rfl (by decide) (by decide)

/-- C6: in every expansion of `CHECK_INLINED` the first statement is the
declaration initialised by the call of the probe, executing it records the probe
call as the first step, and the steps of the whole expansion are, in order, the
probe call, the resolution of the entry address, its conversion, and the
comparison: nothing precedes the probe call. -/
theorem C6_probe_call_is_first (m : Machine) (σ : State) (line : Nat) (C F B : Ident)
    (hsite : freshSite σ B) :
    (CHECK_INLINED line C F B).head?
      = some (.declInit .uintptr_t "EXEC_ADDR" .callReturnAddress) ∧
    execStmt m σ (.declInit .uintptr_t "EXEC_ADDR" .callReturnAddress)
      = some { σ with locals := ("EXEC_ADDR", .addr (RETURN_ADDRESS m)) :: σ.locals,
                      trace := σ.trace ++ [.probe] } ∧
    ∃ τ, execStmts m σ (CHECK_INLINED line C F B) = some τ ∧
      τ.trace = σ.trace ++ [.probe, .resolve C F, .convert, .compare] := by
  refine ⟨rfl, ?_, _, execStmts_CHECK_INLINED0 m σ C F _ B hsite, rfl⟩
  have h1 := hsite.2 "EXEC_ADDR" (by simp)
  simp [execStmt, evalExpr, State.declare, h1]

theorem C6_probe_call_is_first_witness :
    freshSite sampleState2 "fINLINED" ∧
    ((CHECK_INLINED 74 "SimpleInlineTest" "func0" "fINLINED").head?
      = some (.declInit .uintptr_t "EXEC_ADDR" .callReturnAddress) ∧
    execStmt sampleMachine sampleState2 (.declInit .uintptr_t "EXEC_ADDR" .callReturnAddress)
      = some { sampleState2 with
                locals := ("EXEC_ADDR", .addr (RETURN_ADDRESS sampleMachine)) :: sampleState2.locals,
                trace := sampleState2.trace ++ [.probe] } ∧
    ∃ τ, execStmts sampleMachine sampleState2
        (CHECK_INLINED 74 "SimpleInlineTest" "func0" "fINLINED") = some τ ∧
      τ.trace = sampleState2.trace
        ++ [.probe, .resolve "SimpleInlineTest" "func0", .convert, .compare]) :=
  ⟨by decide,
    C6_probe_call_is_first sampleMachine sampleState2 74 "SimpleInlineTest" "func0" "fINLINED"
      (by decide)⟩

/-- C7 (evaluation at two neighbouring sites): the expansions of `CHECK_INLINED`
at lines 74 and 75 with the boolean names `fINLINED` and `gINLINED` both declare
`EXEC_ADDR`, `FUNC_ADDR` and `VADDR`; the generated symbols `gensym_74` and
`gensym_75` differ but neither is declared by its expansion; and the two
expansions placed one after the other in one block are rejected as a
redeclaration. -/
theorem C7_two_expansions_share_temporaries :
    declaredIdents (CHECK_INLINED 74 "SimpleInlineTest" "func0" "fINLINED")
      = ["EXEC_ADDR", "FUNC_ADDR", "fINLINED", "VADDR"] ∧
    declaredIdents (CHECK_INLINED 75 "SimpleInlineTest" "func0" "gINLINED")
      = ["EXEC_ADDR", "FUNC_ADDR", "gINLINED", "VADDR"] ∧
    (declaredIdents (CHECK_INLINED 74 "SimpleInlineTest" "func0" "fINLINED")).filter
        (fun x => decide (x ∈ declaredIdents (CHECK_INLINED 75 "SimpleInlineTest" "func0" "gINLINED")))
      = ["EXEC_ADDR", "FUNC_ADDR", "VADDR"] ∧
    GENSYM 74 = "gensym_74" ∧ GENSYM 75 = "gensym_75" ∧
    GENSYM 74 ∉ declaredIdents (CHECK_INLINED 74 "SimpleInlineTest" "func0" "fINLINED") ∧
    GENSYM 75 ∉ declaredIdents (CHECK_INLINED 75 "SimpleInlineTest" "func0" "gINLINED") ∧
    (execStmts sampleMachine sampleState
        (CHECK_INLINED 74 "SimpleInlineTest" "func0" "fINLINED")).isSome = true ∧
    execStmts sampleMachine sampleState
        (CHECK_INLINED 74 "SimpleInlineTest" "func0" "fINLINED"
          ++ CHECK_INLINED 75 "SimpleInlineTest" "func0" "gINLINED") = none := by
  decide

/-- C8 (counterexample): with `exec = 0` and `func = 2^64 - 1` the execution
address is below the entry address, yet the wrapped distance is 1 and the test
reports not inlined. -/
theorem C8_counterexample :
    ¬ ∀ exec func : Nat, exec < 2 ^ 64 → func < 2 ^ 64 → exec < func →
      (uintptr_sub exec func > 0x40 ∧ classify exec func = true) := by
  intro h
  have h1 := (h 0 (2 ^ 64 - 1) (by decide) (by decide) (by decide)).2
  revert h1
  decide

/-- C8 (amended): for 64-bit addresses with `exec` below `func`, the wrapped
distance is `2^64 - (func - exec)`, and the test reports inlined exactly when
`func - exec < 2^64 - 64`; when `func - exec ≥ 2^64 - 64` the wrapped distance
is at most 64 and the test reports not inlined. -/
theorem C8_below_entry_inlined_iff (exec func : Nat) (hf : func < 2 ^ 64) (hlt : exec < func) :
    uintptr_sub exec func = 2 ^ 64 - (func - exec) ∧
    (classify exec func = true ↔ func - exec < 2 ^ 64 - 64) := by
  have hd : uintptr_sub exec func = 2 ^ 64 - (func - exec) := by
    unfold uintptr_sub UINTPTR_MOD
    omega
  refine ⟨hd, ?_⟩
  rw [classify_eq_true_iff, hd]
  omega

theorem C8_below_entry_inlined_iff_witness :
    (0x401220 : Nat) < 2 ^ 64 ∧ (0x401000 : Nat) < 0x401220 ∧
    (uintptr_sub 0x401000 0x401220 = 2 ^ 64 - (0x401220 - 0x401000) ∧
    (classify 0x401000 0x401220 = true ↔ 0x401220 - 0x401000 < 2 ^ 64 - 64)) :=
  ⟨by decide, by decide, C8_below_entry_inlined_iff 0x401000 0x401220 (by decide) (by decide)⟩

/-- C9: `GENSYM` at line `m` is the identifier `gensym_` followed by the decimal
rendering of `m` (the two-stage paste expands `__LINE__` first), the rendering
reads back as `m`, and two generated identifiers are equal exactly when their
line numbers are equal. -/
theorem C9_GENSYM_decimal_and_injective (m n : Nat) :
    GENSYM m = "gensym_" ++ Nat.repr m ∧
    decimalValue (Nat.repr m).data = m ∧
    (GENSYM m = GENSYM n ↔ m = n) := by
  refine ⟨rfl, decimalValue_repr m, fun h => ?_, fun h => by rw [h]⟩
  rw [GENSYM_eq, GENSYM_eq] at h
  have hd := congrArg String.data h
  simp only [String.data_append, List.append_cancel_left_eq] at hd
  have hv := congrArg decimalValue hd
  rwa [decimalValue_repr, decimalValue_repr] at hv

/-- C10: the distance test is invariant under relocation: adding the same offset
`k` (modulo `2^64`) to both 64-bit addresses leaves the wrapped distance and the
classification unchanged. -/
theorem C10_relocation_invariant (exec func k : Nat) (he : exec < 2 ^ 64) (hf : func < 2 ^ 64) :
    uintptr_sub ((exec + k) % 2 ^ 64) ((func + k) % 2 ^ 64) = uintptr_sub exec func ∧
    classify ((exec + k) % 2 ^ 64) ((func + k) % 2 ^ 64) = classify exec func := by
  have h := uintptr_sub_reloc exec func k he hf
  unfold UINTPTR_MOD at h
  refine ⟨h, ?_⟩
  unfold classify
  rw [h]

theorem C10_relocation_invariant_witness :
    (0x401234 : Nat) < 2 ^ 64 ∧ (0x401220 : Nat) < 2 ^ 64 ∧
    (uintptr_sub ((0x401234 + 0xfffffffffffff000) % 2 ^ 64) ((0x401220 + 0xfffffffffffff000) % 2 ^ 64)
      = uintptr_sub 0x401234 0x401220 ∧
    classify ((0x401234 + 0xfffffffffffff000) % 2 ^ 64) ((0x401220 + 0xfffffffffffff000) % 2 ^ 64)
      = classify 0x401234 0x401220) :=
  ⟨by decide, by decide,
    C10_relocation_invariant 0x401234 0x401220 0xfffffffffffff000 (by decide) (by decide)⟩

end CheckInlined
